import Mathlib

set_option maxRecDepth 4000

/- Shallow embedding of the calpal iCalendar core (src/types.rs,
   src/timezone.rs, src/event.rs, src/lib.rs).

   Dates and date-times are modelled on an unbounded integer timeline: a
   chrono NaiveDate is represented by its civil day number (days since
   1970-01-01) and a NaiveDateTime / DateTime<Utc> by the corresponding
   second count; chrono's ±262143-year clamp is unreachable from the
   four-digit-year grammar and is not modelled.  A chrono Duration is
   represented by its signed number of seconds (every duration produced by
   the grammar is a whole number of seconds); its i64-millisecond range
   checks, which panic on overflow, are modelled explicitly.  Rust panics
   (unwrap on None/Err, slice index out of bounds, integer parse overflow)
   are modelled as an explicit `panicked` outcome, distinct from the
   ordinary error values that Rust returns as Err. -/

/-- Modelled from the spec: the per-primitive-type tags of the `TypeDecode`
error kind (spec section 7, "a parameterized TypeDecode(which-primitive-type)").
The enum itself is declared in a module of the repository that is not under
src/, but its variants are pinned by their uses in src/types.rs
(`crate::ICalTypes`). -/
inductive ICalTypes where
  | Binary
  | Boolean
  | CalAddress
  | Date
  | DateTime
  | Duration
  | Float
  | Integer
  | Period
  | Recur
  | Text
  | Time
  | URI
  | UTCOffset
deriving DecidableEq, Repr

/-- The error enum of src/lib.rs, together with the `TypeDecode` variant used
throughout src/types.rs (its declaration lives outside src/, see `ICalTypes`). -/
inductive Error where
  | InvalidDate
  | InvalidTime
  | InvalidDateTime
  | InvalidTimeRange
  | InvalidTimezone
  | TypeDecode (t : ICalTypes)
deriving DecidableEq, Repr

/-- Outcome of a fallible Rust computation: `panicked` models a Rust panic
(unwrap on None/Err, out-of-bounds index, arithmetic range violation), which
aborts the computation and is distinct from returning an `Err` value. -/
inductive RResult (α : Type) where
  | panicked
  | err (e : Error)
  | ok (v : α)
deriving DecidableEq, Repr

/-- An ical-crate `Property`: a name, an optional raw value and an optional
parameter list (`Option<Vec<(String, Vec<String>)>>`). -/
structure Property where
  name : String
  value : Option String
  params : Option (List (String × List String))
deriving DecidableEq, Repr

/-- Proleptic-Gregorian leap-year test, as used by chrono. -/
def isLeapYear (y : Int) : Bool :=
  y % 4 == 0 && (y % 100 != 0 || y % 400 == 0)

/-- Number of days in month `m` of year `y` (Gregorian calendar). -/
def daysInMonth (y : Int) (m : Nat) : Nat :=
  if m = 2 then (if isLeapYear y then 29 else 28)
  else if m = 4 ∨ m = 6 ∨ m = 9 ∨ m = 11 then 30
  else 31

/-- Civil day number of `y-m-d` (days since 1970-01-01, Howard Hinnant's
days-from-civil algorithm); this is the integer representation of a chrono
`NaiveDate`. -/
def daysFromCivil (y : Int) (m d : Nat) : Int :=
  let y2 : Int := if m ≤ 2 then y - 1 else y
  let era : Int := y2.fdiv 400
  let yoe : Int := y2 - era * 400
  let mp : Int := if m > 2 then (m : Int) - 3 else (m : Int) + 9
  let doy : Int := (153 * mp + 2).fdiv 5 + (d : Int) - 1
  let doe : Int := yoe * 365 + yoe.fdiv 4 - yoe.fdiv 100 + doy
  era * 146097 + doe - 719468

/-- chrono `NaiveDate::from_ymd_opt`: None on an invalid calendar date
(the grammar's four-digit years 0000..9999 are all inside chrono's year
range, so only month/day validity can fail). -/
def NaiveDate.from_ymd_opt (y : Int) (m d : Nat) : Option Int :=
  if 1 ≤ m ∧ m ≤ 12 ∧ 1 ≤ d ∧ d ≤ daysInMonth y m then
    some (daysFromCivil y m d)
  else none

/-- chrono `NaiveTime::from_hms_opt`: the second count within the day, None
on an invalid wall-clock reading. -/
def NaiveTime.from_hms_opt (h m s : Nat) : Option Int :=
  if h ≤ 23 ∧ m ≤ 59 ∧ s ≤ 59 then
    some ((h : Int) * 3600 + (m : Int) * 60 + (s : Int))
  else none

/-- i64::MAX, the bound of Rust's `str::parse::<i64>()` and (in
milliseconds) of a chrono Duration. -/
def i64Max : Int := 9223372036854775807

/-- u64::MAX, the bound of Rust's `str::parse::<u64>()`. -/
def u64Max : Nat := 18446744073709551615

/-- Result of running one rule of the `peg` grammar of src/types.rs:
`done v rest` matched a prefix leaving `rest` unconsumed; `failed` is an
ordinary PEG failure (enclosing ordered choices may try further
alternatives); `panicked` models a Rust panic inside a rule action (PEG
failure handling never recovers from it). -/
inductive PRes (α : Type) where
  | panicked
  | failed
  | done (v : α) (rest : List Char)
deriving DecidableEq, Repr

/-- Consume an expected literal. -/
def matchLit : List Char → List Char → Option (List Char)
  | [], rest => some rest
  | c :: cs, d :: ds => if c = d then matchLit cs ds else none
  | _ :: _, [] => none

/-- Numeric value of a digit string. -/
def digitsVal (cs : List Char) : Nat :=
  cs.foldl (fun acc c => acc * 10 + (c.toNat - 48)) 0

/-- Exactly `n` digits (the grammar's `['0'..='9']{n}`). -/
def takeExactDigits : Nat → List Char → Option (List Char × List Char)
  | 0, rest => some ([], rest)
  | n + 1, c :: rest =>
    if c.isDigit then (takeExactDigits n rest).map (fun p => (c :: p.1, p.2))
    else none
  | _ + 1, [] => none

/-- One or more digits, greedily (the grammar's `['0'..='9']+`; PEG
repetition is possessive). -/
def takeDigits1 (cs : List Char) : Option (List Char × List Char) :=
  let ds := cs.takeWhile (fun c => c.isDigit)
  if ds.isEmpty then none else some (ds, cs.drop ds.length)

/-- One or two digits, greedily (the grammar's `['0'..='9']*<1,2>`). -/
def takeDigitsUpTo2 : List Char → Option (Nat × List Char)
  | [] => none
  | [c] => if c.isDigit then some (digitsVal [c], []) else none
  | c1 :: c2 :: rest =>
    if c1.isDigit then
      if c2.isDigit then some (digitsVal [c1, c2], rest)
      else some (digitsVal [c1], c2 :: rest)
    else none

/-- One to three digits, greedily (the grammar's `['0'..='9']*<1,3>`). -/
def takeDigitsUpTo3 : List Char → Option (Nat × List Char)
  | [] => none
  | [c] => if c.isDigit then some (digitsVal [c], []) else none
  | [c1, c2] =>
    if c1.isDigit then
      if c2.isDigit then some (digitsVal [c1, c2], [])
      else some (digitsVal [c1], [c2])
    else none
  | c1 :: c2 :: c3 :: rest =>
    if c1.isDigit then
      if c2.isDigit then
        if c3.isDigit then some (digitsVal [c1, c2, c3], rest)
        else some (digitsVal [c1, c2], c3 :: rest)
      else some (digitsVal [c1], c2 :: c3 :: rest)
    else none

/-- `ICalTime` of src/types.rs. -/
inductive ICalTime where
  | Utc (time : Int)
  | Floating (time : Int)
  | Local (time : Int) (tzid : String)
deriving DecidableEq, Repr

/-- `IcalDateTime` of src/types.rs; the payloads are second counts on the
common timeline (`DateTime::from_naive_utc_and_offset(_, Utc)` maps a naive
reading to the UTC instant with the same reading, i.e. the identity here). -/
inductive IcalDateTime where
  | Utc (date_time : Int)
  | Floating (date_time : Int)
  | TimeZone (date_time : Int) (tzid : String)
deriving DecidableEq, Repr

/-- Grammar rule `date`: `YYYYMMDD`, validated by `from_ymd_opt` (the rule
action's `?` turns None into a parse failure). -/
def ical_rules.date (inp : List Char) : PRes Int :=
  match takeExactDigits 4 inp with
  | none => .failed
  | some (ys, r1) =>
    match takeExactDigits 2 r1 with
    | none => .failed
    | some (ms, r2) =>
      match takeExactDigits 2 r2 with
      | none => .failed
      | some (ds, r3) =>
        match NaiveDate.from_ymd_opt (digitsVal ys) (digitsVal ms) (digitsVal ds) with
        | none => .failed
        | some day => .done day r3

/-- Grammar rule `raw_time`: `HHMMSS`, validated by `from_hms_opt`. -/
def ical_rules.raw_time (inp : List Char) : PRes Int :=
  match takeExactDigits 2 inp with
  | none => .failed
  | some (hs, r1) =>
    match takeExactDigits 2 r1 with
    | none => .failed
    | some (ms, r2) =>
      match takeExactDigits 2 r2 with
      | none => .failed
      | some (ss, r3) =>
        match NaiveTime.from_hms_opt (digitsVal hs) (digitsVal ms) (digitsVal ss) with
        | none => .failed
        | some t => .done t r3

/-- Grammar rule `time`: a raw time with an optional `Z` suffix forcing Utc. -/
def ical_rules.time (inp : List Char) : PRes ICalTime :=
  match ical_rules.raw_time inp with
  | .panicked => .panicked
  | .failed => .failed
  | .done t rest =>
    match rest with
    | 'Z' :: rest2 => .done (.Utc t) rest2
    | _ => .done (.Floating t) rest

/-- Grammar rule `date_time`: `date` `T` `time`; a Local time is rejected by
the rule action (`Err("Invalid date time")`). -/
def ical_rules.date_time (inp : List Char) : PRes IcalDateTime :=
  match ical_rules.date inp with
  | .panicked => .panicked
  | .failed => .failed
  | .done day r1 =>
    match r1 with
    | 'T' :: r2 =>
      match ical_rules.time r2 with
      | .panicked => .panicked
      | .failed => .failed
      | .done (.Utc t) r3 => .done (.Utc (day * 86400 + t)) r3
      | .done (.Floating t) r3 => .done (.Floating (day * 86400 + t)) r3
      | .done (.Local _ _) _ => .failed
    | _ => .failed

/-- src/types.rs `get_tzid`: first value of the `TZID` parameter.  `find`
yields None when a parameter list is present but holds no TZID entry, and
the subsequent `.unwrap()` (applied to the `.map(|param| param.1.first())`
result) then panics. -/
def get_tzid (p : Property) : RResult (Option String) :=
  match p.params with
  | none => .ok none
  | some ps =>
    match ps.find? (fun q => q.fst == "TZID") with
    | none => .panicked
    | some q => .ok q.snd.head?

/-- `IcalDate` of src/types.rs. -/
structure IcalDate where
  date : Int
deriving DecidableEq, Repr

/-- `TryFrom<Property> for IcalDate`: parse the value with the `date` rule
(public peg rules require the whole input to be consumed). -/
def IcalDate.tryFrom (p : Property) : RResult IcalDate :=
  match p.value with
  | none => .err (.TypeDecode .Date)
  | some v =>
    match ical_rules.date v.toList with
    | .done d [] => .ok ⟨d⟩
    | _ => .err (.TypeDecode .Date)

/-- `TryFrom<Property> for IcalDateTime`: the TZID parameter is extracted
first (src/types.rs line 410, so `get_tzid` may panic before the value is
parsed), then the parsed variant and the tzid are combined; `Utc` with a
tzid is a decode failure. -/
def IcalDateTime.tryFrom (p : Property) : RResult IcalDateTime :=
  match p.value with
  | none => .err (.TypeDecode .DateTime)
  | some v =>
    match get_tzid p with
    | .panicked => .panicked
    | .err e => .err e
    | .ok tzid =>
      match ical_rules.date_time v.toList with
      | .done dt [] =>
        match dt, tzid with
        | .Utc t, none => .ok (.Utc t)
        | .Floating t, none => .ok (.Floating t)
        | .Floating t, some z => .ok (.TimeZone t z)
        | _, _ => .err (.TypeDecode .DateTime)
      | .panicked => .panicked
      | _ => .err (.TypeDecode .DateTime)

/-- `ICalDuration` of src/types.rs (a chrono Duration, here its signed second
count; the grammar only ever produces whole seconds). -/
structure ICalDuration where
  duration : Int
deriving DecidableEq, Repr

/-- Rust `str::parse::<i64>()` on a digit string: None models the Err that
the grammar actions `.unwrap()`, i.e. a panic. -/
def parseI64 (ds : List Char) : Option Int :=
  if (digitsVal ds : Int) ≤ i64Max then some ((digitsVal ds : Int)) else none

/-- A chrono Duration constructor (`Duration::seconds/minutes/hours/days/weeks`):
`n` units of `secPerUnit` seconds; None models the constructor's panic when
the span leaves the i64 millisecond range. -/
def chronoDur (secPerUnit : Int) (n : Int) : Option Int :=
  if (n * secPerUnit) * 1000 ≤ i64Max ∧ -i64Max ≤ (n * secPerUnit) * 1000 then
    some (n * secPerUnit)
  else none

/-- chrono `Duration + Duration`: panics (None) when the sum leaves the i64
millisecond range. -/
def chronoAdd (a b : Int) : Option Int :=
  if (a + b) * 1000 ≤ i64Max ∧ -i64Max ≤ (a + b) * 1000 then some (a + b) else none

/-- Shared action of the `duration_*` rules: parse the captured digits as
i64 (unwrap), build the unit duration, and add the already-parsed tail span
`s`; every None on the way is a panic. -/
def durActionAdd (ds : List Char) (secPerUnit : Int) (s : Int) (rest : List Char) : PRes Int :=
  match parseI64 ds with
  | none => .panicked
  | some n =>
    match chronoDur secPerUnit n with
    | none => .panicked
    | some d =>
      match chronoAdd d s with
      | none => .panicked
      | some t => .done t rest

/-- Grammar rule `duration_seconds`: digits `S`. -/
def ical_rules.duration_seconds (inp : List Char) : PRes Int :=
  match takeDigits1 inp with
  | none => .failed
  | some (ds, r1) =>
    match r1 with
    | 'S' :: r2 =>
      match parseI64 ds with
      | none => .panicked
      | some n =>
        match chronoDur 1 n with
        | none => .panicked
        | some d => .done d r2
    | _ => .failed

/-- Grammar rule `duration_minutes`: digits `M` then an optional seconds
span (added to `Duration::minutes(..)` in the action). -/
def ical_rules.duration_minutes (inp : List Char) : PRes Int :=
  match takeDigits1 inp with
  | none => .failed
  | some (ds, r1) =>
    match r1 with
    | 'M' :: r2 =>
      match ical_rules.duration_seconds r2 with
      | .panicked => .panicked
      | .failed => durActionAdd ds 60 0 r2
      | .done s r3 => durActionAdd ds 60 s r3
    | _ => .failed

/-- Grammar rule `duration_hours`: digits `H` then an optional minutes span. -/
def ical_rules.duration_hours (inp : List Char) : PRes Int :=
  match takeDigits1 inp with
  | none => .failed
  | some (ds, r1) =>
    match r1 with
    | 'H' :: r2 =>
      match ical_rules.duration_minutes r2 with
      | .panicked => .panicked
      | .failed => durActionAdd ds 3600 0 r2
      | .done s r3 => durActionAdd ds 3600 s r3
    | _ => .failed

/-- Grammar rule `duration_time`: `T` then hours / minutes / seconds
(ordered choice; a panic in an earlier alternative aborts, it is not a
recoverable failure). -/
def ical_rules.duration_time (inp : List Char) : PRes Int :=
  match inp with
  | 'T' :: r1 =>
    match ical_rules.duration_hours r1 with
    | .panicked => .panicked
    | .done v r => .done v r
    | .failed =>
      match ical_rules.duration_minutes r1 with
      | .panicked => .panicked
      | .done v r => .done v r
      | .failed => ical_rules.duration_seconds r1
  | _ => .failed

/-- Grammar rule `duration_days`: digits `D` then an optional time span. -/
def ical_rules.duration_days (inp : List Char) : PRes Int :=
  match takeDigits1 inp with
  | none => .failed
  | some (ds, r1) =>
    match r1 with
    | 'D' :: r2 =>
      match ical_rules.duration_time r2 with
      | .panicked => .panicked
      | .failed => durActionAdd ds 86400 0 r2
      | .done s r3 => durActionAdd ds 86400 s r3
    | _ => .failed

/-- Grammar rule `duration_weeks`: digits `W`. -/
def ical_rules.duration_weeks (inp : List Char) : PRes Int :=
  match takeDigits1 inp with
  | none => .failed
  | some (ds, r1) =>
    match r1 with
    | 'W' :: r2 =>
      match parseI64 ds with
      | none => .panicked
      | some n =>
        match chronoDur 604800 n with
        | none => .panicked
        | some d => .done d r2
    | _ => .failed

/-- Grammar rule `duration`: optional sign, `P`, then days / time / weeks
(ordered choice); the sign negates the whole span. -/
def ical_rules.duration (inp : List Char) : PRes ICalDuration :=
  let sr : Bool × List Char :=
    match inp with
    | '-' :: r => (true, r)
    | '+' :: r => (false, r)
    | r => (false, r)
  match sr.2 with
  | 'P' :: r1 =>
    let body : PRes Int :=
      match ical_rules.duration_days r1 with
      | .panicked => .panicked
      | .done v r => .done v r
      | .failed =>
        match ical_rules.duration_time r1 with
        | .panicked => .panicked
        | .done v r => .done v r
        | .failed => ical_rules.duration_weeks r1
    match body with
    | .panicked => .panicked
    | .failed => .failed
    | .done v r => .done ⟨if sr.1 then -v else v⟩ r
  | _ => .failed

/-- `TryFrom<Property> for ICalDuration`. -/
def ICalDuration.tryFrom (p : Property) : RResult ICalDuration :=
  match p.value with
  | none => .err (.TypeDecode .Duration)
  | some v =>
    match ical_rules.duration v.toList with
    | .done d [] => .ok d
    | .panicked => .panicked
    | _ => .err (.TypeDecode .Duration)

/-- `IcalPeriod` of src/types.rs. -/
inductive IcalPeriod where
  | StartEnd (start : IcalDateTime) (end_ : IcalDateTime)
  | StartDuration (start : IcalDateTime) (duration : ICalDuration)
deriving DecidableEq, Repr

/-- Rust `str::split(sep)` (always yields at least one piece). -/
def splitOnChar (sep : Char) : List Char → List (List Char)
  | [] => [[]]
  | c :: rest =>
    if c = sep then [] :: splitOnChar sep rest
    else
      match splitOnChar sep rest with
      | [] => [[c]]
      | h :: t => (c :: h) :: t

/-- `TryFrom<Property> for IcalPeriod` (src/types.rs lines 496-517): the
value is split on `/`; with two pieces both sides are parsed as date-times
(a failing right side propagates its DateTime decode error — the grammar's
Duration fallback is never consulted); with one piece the code parses the
left side and then indexes `parts[1]`, which is out of bounds and panics;
any other piece count is a Period decode failure. -/
def IcalPeriod.tryFrom (p : Property) : RResult IcalPeriod :=
  match p.value with
  | none => .err (.TypeDecode .Period)
  | some v =>
    match splitOnChar '/' v.toList with
    | [a, b] =>
      match IcalDateTime.tryFrom ⟨p.name, some ⟨a⟩, p.params⟩ with
      | .panicked => .panicked
      | .err e => .err e
      | .ok s =>
        match IcalDateTime.tryFrom ⟨p.name, some ⟨b⟩, p.params⟩ with
        | .panicked => .panicked
        | .err e => .err e
        | .ok e => .ok (.StartEnd s e)
    | [a] =>
      match IcalDateTime.tryFrom ⟨p.name, some ⟨a⟩, p.params⟩ with
      | .panicked => .panicked
      | .err e => .err e
      | .ok _ => .panicked
    | _ => .err (.TypeDecode .Period)

/-- `IcalRecurUntil` of src/types.rs (a date or a UTC date-time limit). -/
inductive IcalRecurUntil where
  | Date (d : Int)
  | DateTime (t : Int)
deriving DecidableEq, Repr

/-- `IcalRecurLimit` of src/types.rs. -/
inductive IcalRecurLimit where
  | Count (n : Nat)
  | Until (u : IcalRecurUntil)
deriving DecidableEq, Repr

/-- `ICalRecurFrequency` of src/types.rs. -/
inductive ICalRecurFrequency where
  | Secondly
  | Minutely
  | Hourly
  | Daily
  | Weekly
  | Monthly
  | Yearly
deriving DecidableEq, Repr

/-- `ICalRecurDayOfWeek` of src/types.rs. -/
inductive ICalRecurDayOfWeek where
  | Sunday
  | Monday
  | Tuesday
  | Wednesday
  | Thursday
  | Friday
  | Saturday
deriving DecidableEq, Repr

/-- `IcalRecurWeekDay` of src/types.rs: a weekday with an optional signed
ordinal. -/
structure IcalRecurWeekDay where
  day : ICalRecurDayOfWeek
  nth_of_month : Option Int
deriving DecidableEq, Repr

/-- `IcalRecurBuilder` of src/types.rs: one optional slot per recurrence
fragment; `Default` leaves every slot empty. -/
structure IcalRecurBuilder where
  limit : Option IcalRecurLimit := none
  interval : Option Nat := none
  by_second : Option (List Nat) := none
  by_minute : Option (List Nat) := none
  by_hour : Option (List Nat) := none
  by_day : Option (List IcalRecurWeekDay) := none
  by_month_day : Option (List Int) := none
  by_year_day : Option (List Int) := none
  by_week_no : Option (List Int) := none
  by_month : Option (List Nat) := none
  by_set_pos : Option (List Int) := none
  wkst : Option ICalRecurDayOfWeek := none
deriving DecidableEq, Repr

/-- `IcalRecurBuilder::merge`: combining two builders that both set the same
field is a Recur decode error; otherwise each slot takes whichever side is
set (`Option::or`). -/
def IcalRecurBuilder.merge (self new : IcalRecurBuilder) : RResult IcalRecurBuilder :=
  if self.limit.isSome && new.limit.isSome then .err (.TypeDecode .Recur)
  else if self.interval.isSome && new.interval.isSome then .err (.TypeDecode .Recur)
  else if self.by_second.isSome && new.by_second.isSome then .err (.TypeDecode .Recur)
  else if self.by_minute.isSome && new.by_minute.isSome then .err (.TypeDecode .Recur)
  else if self.by_hour.isSome && new.by_hour.isSome then .err (.TypeDecode .Recur)
  else if self.by_day.isSome && new.by_day.isSome then .err (.TypeDecode .Recur)
  else if self.by_month_day.isSome && new.by_month_day.isSome then .err (.TypeDecode .Recur)
  else if self.by_year_day.isSome && new.by_year_day.isSome then .err (.TypeDecode .Recur)
  else if self.by_week_no.isSome && new.by_week_no.isSome then .err (.TypeDecode .Recur)
  else if self.by_month.isSome && new.by_month.isSome then .err (.TypeDecode .Recur)
  else if self.by_set_pos.isSome && new.by_set_pos.isSome then .err (.TypeDecode .Recur)
  else if self.wkst.isSome && new.wkst.isSome then .err (.TypeDecode .Recur)
  else .ok {
    limit := self.limit.or new.limit
    interval := self.interval.or new.interval
    by_second := self.by_second.or new.by_second
    by_minute := self.by_minute.or new.by_minute
    by_hour := self.by_hour.or new.by_hour
    by_day := self.by_day.or new.by_day
    by_month_day := self.by_month_day.or new.by_month_day
    by_year_day := self.by_year_day.or new.by_year_day
    by_week_no := self.by_week_no.or new.by_week_no
    by_month := self.by_month.or new.by_month
    by_set_pos := self.by_set_pos.or new.by_set_pos
    wkst := self.wkst.or new.wkst }

/-- `IcalRecur` of src/types.rs. -/
structure IcalRecur where
  frequency : ICalRecurFrequency
  limit : Option IcalRecurLimit
  interval : Option Nat
  by_second : Option (List Nat)
  by_minute : Option (List Nat)
  by_hour : Option (List Nat)
  by_day : Option (List IcalRecurWeekDay)
  by_month_day : Option (List Int)
  by_year_day : Option (List Int)
  by_week_no : Option (List Int)
  by_month : Option (List Nat)
  by_set_pos : Option (List Int)
  wkst : Option ICalRecurDayOfWeek
deriving DecidableEq, Repr

/-- `IcalRecurBuilder::build`. -/
def IcalRecurBuilder.build (b : IcalRecurBuilder) (frequency : ICalRecurFrequency) : IcalRecur :=
  { frequency := frequency
    limit := b.limit
    interval := b.interval
    by_second := b.by_second
    by_minute := b.by_minute
    by_hour := b.by_hour
    by_day := b.by_day
    by_month_day := b.by_month_day
    by_year_day := b.by_year_day
    by_week_no := b.by_week_no
    by_month := b.by_month
    by_set_pos := b.by_set_pos
    wkst := b.wkst }

/-- Grammar rule `two_digit_i8`: optional sign then one or two digits (at
most two digits, so the `i8` conversion can never overflow or panic). -/
def ical_rules.two_digit_i8 (inp : List Char) : Option (Int × List Char) :=
  let sr : Bool × List Char :=
    match inp with
    | '-' :: r => (true, r)
    | '+' :: r => (false, r)
    | r => (false, r)
  match takeDigitsUpTo2 sr.2 with
  | none => none
  | some (n, r1) => some ((if sr.1 then -(n : Int) else (n : Int)), r1)

/-- Grammar rule `three_digit_i16`: optional sign then one to three digits
(at most three digits, so the `i16` conversion can never overflow). -/
def ical_rules.three_digit_i16 (inp : List Char) : Option (Int × List Char) :=
  let sr : Bool × List Char :=
    match inp with
    | '-' :: r => (true, r)
    | '+' :: r => (false, r)
    | r => (false, r)
  match takeDigitsUpTo3 sr.2 with
  | none => none
  | some (n, r1) => some ((if sr.1 then -(n : Int) else (n : Int)), r1)

/-- Grammar rule `recur_day_of_week`: one of the seven two-letter weekday
codes. -/
def ical_rules.recur_day_of_week (inp : List Char) : Option (ICalRecurDayOfWeek × List Char) :=
  match inp with
  | 'S' :: 'U' :: r => some (.Sunday, r)
  | 'M' :: 'O' :: r => some (.Monday, r)
  | 'T' :: 'U' :: r => some (.Tuesday, r)
  | 'W' :: 'E' :: r => some (.Wednesday, r)
  | 'T' :: 'H' :: r => some (.Thursday, r)
  | 'F' :: 'R' :: r => some (.Friday, r)
  | 'S' :: 'A' :: r => some (.Saturday, r)
  | _ => none

/-- Grammar rule `recur_weekday`: an optional signed ordinal then a weekday
code. -/
def ical_rules.recur_weekday (inp : List Char) : Option (IcalRecurWeekDay × List Char) :=
  match ical_rules.two_digit_i8 inp with
  | some (v, r1) =>
    match ical_rules.recur_day_of_week r1 with
    | some (d, r2) => some (⟨d, some v⟩, r2)
    | none => none
  | none =>
    match ical_rules.recur_day_of_week inp with
    | some (d, r2) => some (⟨d, none⟩, r2)
    | none => none

/-- Tail of a comma-separated repetition (`item ++ ","`): each further
iteration must consume the comma and then an item; an iteration that fails
mid-way is abandoned without consuming (PEG repetition).  The fuel is at
least the input length, and every iteration consumes at least the comma, so
it never runs out. -/
def sepTail {α : Type} (item : List Char → Option (α × List Char)) : Nat → List Char → List α × List Char
  | 0, rest => ([], rest)
  | fuel + 1, rest =>
    match rest with
    | ',' :: r2 =>
      match item r2 with
      | some (v, r3) =>
        let p := sepTail item fuel r3
        (v :: p.1, p.2)
      | none => ([], rest)
    | _ => ([], rest)

/-- A nonempty comma-separated list (the grammar's `item ++ ","`). -/
def sepByComma {α : Type} (item : List Char → Option (α × List Char)) (inp : List Char) : Option (List α × List Char) :=
  match item inp with
  | none => none
  | some (v, r1) =>
    let p := sepTail item r1.length r1
    some (v :: p.1, p.2)

/-- Grammar rule `recur_u8_list` (each element has at most two digits, so
the `u8` parse never fails). -/
def ical_rules.recur_u8_list (inp : List Char) : Option (List Nat × List Char) :=
  sepByComma takeDigitsUpTo2 inp

/-- Grammar rule `recur_i8_list`. -/
def ical_rules.recur_i8_list (inp : List Char) : Option (List Int × List Char) :=
  sepByComma ical_rules.two_digit_i8 inp

/-- Grammar rule `recur_i16_list`. -/
def ical_rules.recur_i16_list (inp : List Char) : Option (List Int × List Char) :=
  sepByComma ical_rules.three_digit_i16 inp

/-- Grammar rule `recur_by_day_list`. -/
def ical_rules.recur_by_day_list (inp : List Char) : Option (List IcalRecurWeekDay × List Char) :=
  sepByComma ical_rules.recur_weekday inp

/-- Grammar rule `recur_until`: ordered choice between `";UNTIL=" date()`
and `";UNTIL=" date_time()`.  The date alternative is tried first and
commits whenever the eight digits after `;UNTIL=` form a valid date — which
is also a prerequisite of the date-time alternative, so the latter (and its
UTC check) is unreachable. -/
def ical_rules.recur_until (inp : List Char) : PRes IcalRecurBuilder :=
  match matchLit (";UNTIL=").toList inp with
  | none => .failed
  | some r1 =>
    match ical_rules.date r1 with
    | .done d r2 => .done { limit := some (.Until (.Date d)) } r2
    | .panicked => .panicked
    | .failed =>
      match ical_rules.date_time r1 with
      | .done (.Utc t) r2 => .done { limit := some (.Until (.DateTime t)) } r2
      | .done _ _ => .failed
      | .panicked => .panicked
      | .failed => .failed

/-- Grammar rule `recur_count`: `;COUNT=` then digits, `parse::<u64>()`
unwrapped (panics on overflow). -/
def ical_rules.recur_count (inp : List Char) : PRes IcalRecurBuilder :=
  match matchLit (";COUNT=").toList inp with
  | none => .failed
  | some r1 =>
    match takeDigits1 r1 with
    | none => .failed
    | some (ds, r2) =>
      if digitsVal ds > u64Max then .panicked
      else .done { limit := some (.Count (digitsVal ds)) } r2

/-- Grammar rule `recur_interval`: `;INTERVAL=` then digits, `parse::<u64>()`
unwrapped (panics on overflow). -/
def ical_rules.recur_interval (inp : List Char) : PRes IcalRecurBuilder :=
  match matchLit (";INTERVAL=").toList inp with
  | none => .failed
  | some r1 =>
    match takeDigits1 r1 with
    | none => .failed
    | some (ds, r2) =>
      if digitsVal ds > u64Max then .panicked
      else .done { interval := some (digitsVal ds) } r2

/-- Grammar rule `recur_by_second`. -/
def ical_rules.recur_by_second (inp : List Char) : PRes IcalRecurBuilder :=
  match matchLit (";BYSECOND=").toList inp with
  | none => .failed
  | some r1 =>
    match ical_rules.recur_u8_list r1 with
    | none => .failed
    | some (vs, r2) => .done { by_second := some vs } r2

/-- Grammar rule `recur_by_minute`. -/
def ical_rules.recur_by_minute (inp : List Char) : PRes IcalRecurBuilder :=
  match matchLit (";BYMINUTE=").toList inp with
  | none => .failed
  | some r1 =>
    match ical_rules.recur_u8_list r1 with
    | none => .failed
    | some (vs, r2) => .done { by_minute := some vs } r2

/-- Grammar rule `recur_by_hour`. -/
def ical_rules.recur_by_hour (inp : List Char) : PRes IcalRecurBuilder :=
  match matchLit (";BYHOUR=").toList inp with
  | none => .failed
  | some r1 =>
    match ical_rules.recur_u8_list r1 with
    | none => .failed
    | some (vs, r2) => .done { by_hour := some vs } r2

/-- Grammar rule `recur_by_day`. -/
def ical_rules.recur_by_day (inp : List Char) : PRes IcalRecurBuilder :=
  match matchLit (";BYDAY=").toList inp with
  | none => .failed
  | some r1 =>
    match ical_rules.recur_by_day_list r1 with
    | none => .failed
    | some (vs, r2) => .done { by_day := some vs } r2

/-- Grammar rule `recur_by_month_day`. -/
def ical_rules.recur_by_month_day (inp : List Char) : PRes IcalRecurBuilder :=
  match matchLit (";BYMONTHDAY=").toList inp with
  | none => .failed
  | some r1 =>
    match ical_rules.recur_i8_list r1 with
    | none => .failed
    | some (vs, r2) => .done { by_month_day := some vs } r2

/-- Grammar rule `recur_by_year_day`. -/
def ical_rules.recur_by_year_day (inp : List Char) : PRes IcalRecurBuilder :=
  match matchLit (";BYYEARDAY=").toList inp with
  | none => .failed
  | some r1 =>
    match ical_rules.recur_i16_list r1 with
    | none => .failed
    | some (vs, r2) => .done { by_year_day := some vs } r2

/-- Grammar rule `recur_by_week_no`. -/
def ical_rules.recur_by_week_no (inp : List Char) : PRes IcalRecurBuilder :=
  match matchLit (";BYWEEKNO=").toList inp with
  | none => .failed
  | some r1 =>
    match ical_rules.recur_i8_list r1 with
    | none => .failed
    | some (vs, r2) => .done { by_week_no := some vs } r2

/-- Grammar rule `recur_by_month`. -/
def ical_rules.recur_by_month (inp : List Char) : PRes IcalRecurBuilder :=
  match matchLit (";BYMONTH=").toList inp with
  | none => .failed
  | some r1 =>
    match ical_rules.recur_u8_list r1 with
    | none => .failed
    | some (vs, r2) => .done { by_month := some vs } r2

/-- Grammar rule `recur_by_set_pos`. -/
def ical_rules.recur_by_set_pos (inp : List Char) : PRes IcalRecurBuilder :=
  match matchLit (";BYSETPOS=").toList inp with
  | none => .failed
  | some r1 =>
    match ical_rules.recur_i16_list r1 with
    | none => .failed
    | some (vs, r2) => .done { by_set_pos := some vs } r2

/-- Grammar rule `recur_wkst`. -/
def ical_rules.recur_wkst (inp : List Char) : PRes IcalRecurBuilder :=
  match matchLit (";WKST=").toList inp with
  | none => .failed
  | some r1 =>
    match ical_rules.recur_day_of_week r1 with
    | none => .failed
    | some (d, r2) => .done { wkst := some d } r2

/-- Grammar rule `recur_keyword`: the ordered choice over every fragment
rule (a panic in an alternative aborts instead of trying the next one). -/
def ical_rules.recur_keyword (inp : List Char) : PRes IcalRecurBuilder :=
  match ical_rules.recur_until inp with
  | .done b r => .done b r
  | .panicked => .panicked
  | .failed =>
  match ical_rules.recur_count inp with
  | .done b r => .done b r
  | .panicked => .panicked
  | .failed =>
  match ical_rules.recur_interval inp with
  | .done b r => .done b r
  | .panicked => .panicked
  | .failed =>
  match ical_rules.recur_by_second inp with
  | .done b r => .done b r
  | .panicked => .panicked
  | .failed =>
  match ical_rules.recur_by_minute inp with
  | .done b r => .done b r
  | .panicked => .panicked
  | .failed =>
  match ical_rules.recur_by_hour inp with
  | .done b r => .done b r
  | .panicked => .panicked
  | .failed =>
  match ical_rules.recur_by_day inp with
  | .done b r => .done b r
  | .panicked => .panicked
  | .failed =>
  match ical_rules.recur_by_month_day inp with
  | .done b r => .done b r
  | .panicked => .panicked
  | .failed =>
  match ical_rules.recur_by_year_day inp with
  | .done b r => .done b r
  | .panicked => .panicked
  | .failed =>
  match ical_rules.recur_by_week_no inp with
  | .done b r => .done b r
  | .panicked => .panicked
  | .failed =>
  match ical_rules.recur_by_month inp with
  | .done b r => .done b r
  | .panicked => .panicked
  | .failed =>
  match ical_rules.recur_by_set_pos inp with
  | .done b r => .done b r
  | .panicked => .panicked
  | .failed => ical_rules.recur_wkst inp

/-- Grammar rule `recur_builder`: one keyword, then optionally a recursive
tail merged into it; a merge conflict makes the rule fail (the `{? .. }`
action error).  The recursion is fuelled: every keyword consumes at least
one character, so `length + 1` fuel (as supplied by `recur`) cannot be
exhausted. -/
def ical_rules.recur_builder : Nat → List Char → PRes IcalRecurBuilder
  | 0, _ => .failed
  | fuel + 1, inp =>
    match ical_rules.recur_keyword inp with
    | .panicked => .panicked
    | .failed => .failed
    | .done b r1 =>
      match ical_rules.recur_builder fuel r1 with
      | .panicked => .panicked
      | .failed => .done b r1
      | .done b2 r2 =>
        match IcalRecurBuilder.merge b b2 with
        | .ok b3 => .done b3 r2
        | .err _ => .failed
        | .panicked => .panicked

/-- Grammar rule `recur`: the mandatory `FREQ=` fragment, then an optional
builder (`unwrap_or_default`), finally built with the frequency. -/
def ical_rules.recur_frequency (inp : List Char) : PRes ICalRecurFrequency :=
  match matchLit ("FREQ=").toList inp with
  | none => .failed
  | some r1 =>
    match matchLit ("SECONDLY").toList r1 with
    | some r => .done .Secondly r
    | none =>
    match matchLit ("MINUTELY").toList r1 with
    | some r => .done .Minutely r
    | none =>
    match matchLit ("HOURLY").toList r1 with
    | some r => .done .Hourly r
    | none =>
    match matchLit ("DAILY").toList r1 with
    | some r => .done .Daily r
    | none =>
    match matchLit ("WEEKLY").toList r1 with
    | some r => .done .Weekly r
    | none =>
    match matchLit ("MONTHLY").toList r1 with
    | some r => .done .Monthly r
    | none =>
    match matchLit ("YEARLY").toList r1 with
    | some r => .done .Yearly r
    | none => .failed

/-- Grammar rule `recur` (public: the whole input must be consumed by the
caller, see `IcalRecur.tryFrom`). -/
def ical_rules.recur (inp : List Char) : PRes IcalRecur :=
  match ical_rules.recur_frequency inp with
  | .panicked => .panicked
  | .failed => .failed
  | .done freq r1 =>
    match ical_rules.recur_builder (r1.length + 1) r1 with
    | .panicked => .panicked
    | .failed => .done (IcalRecurBuilder.build {} freq) r1
    | .done b r2 => .done (b.build freq) r2

/-- `TryFrom<Property> for IcalRecur`. -/
def IcalRecur.tryFrom (p : Property) : RResult IcalRecur :=
  match p.value with
  | none => .err (.TypeDecode .Recur)
  | some v =>
    match ical_rules.recur v.toList with
    | .done r [] => .ok r
    | .panicked => .panicked
    | _ => .err (.TypeDecode .Recur)

/-- `TimezoneTransition` of src/timezone.rs.  `r_rules` abstracts the
optional rrule-crate `RRuleSet` by the chronological sequence of local
instants its iterator yields (only finitely many are ever inspected);
`offset_time` consults nothing but its presence. -/
structure TimezoneTransition where
  local_start_time : Int
  offset : Int
  r_rules : Option (List Int)
deriving DecidableEq, Repr

/-- `Timezone` of src/timezone.rs: a name and the ordered transition list. -/
structure Timezone where
  tzid : String
  transitions : List TimezoneTransition
deriving DecidableEq, Repr

/-- The update condition of the `Timezone::offset_time` loop:
`time >= transition.local_start_time && (last_update.is_none() || transition.local_start_time > last_update.unwrap())`
(the short-circuit `||` makes the inner `unwrap()` safe). -/
def transApplies (t : TimezoneTransition) (time : Int) (last : Option Int) : Bool :=
  decide (t.local_start_time ≤ time) &&
    (match last with
     | none => true
     | some m => decide (m < t.local_start_time))

/-- The loop body of `Timezone::offset_time`, carrying its two mutable
locals (`offset`, `last_update`).  Each iteration first evaluates
`transition.r_rules.as_ref().unwrap()` — a panic when the transition has no
recurrence set — and then updates the locals when the transition's (initial)
local start time is not after the query and strictly after the recorded one. -/
def offsetFold : List TimezoneTransition → Int → Option Int → Option Int → RResult (Option Int × Option Int)
  | [], _, off, last => .ok (off, last)
  | t :: rest, time, off, last =>
    if t.r_rules.isSome then
      if transApplies t time last then
        offsetFold rest time (some t.offset) (some t.local_start_time)
      else
        offsetFold rest time off last
    else .panicked

/-- `Timezone::offset_time`: run the loop; no applicable transition is the
timezone error, otherwise the result is `time + offset` (the query shifted
by the selected offset — note: added, not the offset itself, and not
subtracted). -/
def Timezone.offset_time (tz : Timezone) (time : Int) : RResult Int :=
  match offsetFold tz.transitions time none none with
  | .panicked => .panicked
  | .err e => .err e
  | .ok (none, _) => .err .InvalidTimezone
  | .ok (some o, _) => .ok (time + o)

/-- `Timezone::to_utc`: `DateTime::from_naive_utc_and_offset(offset_time(..), Utc)`
reinterprets the shifted naive reading as a UTC instant with the same
reading — the identity on the integer timeline. -/
def Timezone.to_utc (tz : Timezone) (time : Int) : RResult Int :=
  match tz.offset_time time with
  | .panicked => .panicked
  | .err e => .err e
  | .ok v => .ok v

/-- `TimezoneMap` of src/timezone.rs (`HashMap<String, Timezone>`, modelled
as an association list with unique keys). -/
abbrev TimezoneMap := List (String × Timezone)

/-- `HashMap::get` on the association-list model. -/
def TimezoneMap.get (m : TimezoneMap) (k : String) : Option Timezone :=
  List.lookup k m

/-- Specification model of offset resolution, following spec section 4.3:
every transition contributes its local start date-time together with all
recurrence-generated instants that are not after the query; across all
transitions the latest such anchor wins, with the later-listed transition
taking precedence on ties; with no applicable anchor the resolution fails
with the timezone error kind, otherwise it returns the associated offset. -/
def resolveOffsetSpec (tz : Timezone) (time : Int) : RResult Int :=
  let best := tz.transitions.foldl
    (fun acc tr =>
      let anchors := (tr.local_start_time :: tr.r_rules.getD []).filter (fun a => a ≤ time)
      match anchors.max? with
      | none => acc
      | some a =>
        match acc with
        | none => some (a, tr.offset)
        | some pr => if pr.1 ≤ a then some (a, tr.offset) else acc)
    none
  match best with
  | none => .err .InvalidTimezone
  | some pr => .ok pr.2

/-- `EventTimeRange` of src/event.rs (all bounds on the integer timeline;
`Date` bounds are civil day numbers). -/
inductive EventTimeRange where
  | Date (start : Int) (end_ : Int)
  | DateTime (start : Int) (end_ : Int)
  | FloatingDateTime (start : Int) (end_ : Int)
deriving DecidableEq, Repr

/-- `TimeValue` of src/event.rs. -/
inductive TimeValue where
  | Date (d : IcalDate)
  | DateTime (dt : IcalDateTime)
deriving DecidableEq, Repr

/-- `TryFrom<Property> for TimeValue`: try `IcalDate` first, otherwise
`IcalDateTime` (`or_else`; the date conversion never panics). -/
def TimeValue.tryFrom (p : Property) : RResult TimeValue :=
  match IcalDate.tryFrom p with
  | .ok d => .ok (.Date d)
  | .panicked => .panicked
  | .err _ =>
    match IcalDateTime.tryFrom p with
    | .ok dt => .ok (.DateTime dt)
    | .err e => .err e
    | .panicked => .panicked

/-- The variant tag of an `IcalDateTime` (Utc / Floating / TimeZone), used
to state the mismatched-kind rule of the range resolver. -/
def IcalDateTime.variantTag : IcalDateTime → Nat
  | .Utc _ => 0
  | .Floating _ => 1
  | .TimeZone _ _ => 2

/-- `RawTiming` of src/event.rs (the `end` field is renamed `end_`, `end`
being reserved in Lean). -/
structure RawTiming where
  start : Property
  end_ : Option Property
  duration : Option Property
deriving DecidableEq, Repr

/-- chrono `NaiveDate::succ_opt` on the day-number model: None only at
`NaiveDate::MAX`, which is unreachable from the four-digit-year grammar and
not modelled on the unbounded timeline. -/
def naiveDateSucc (d : Int) : Option Int :=
  some (d + 1)

/-- `RawTiming::get_time_range` (src/event.rs lines 42-91): decode the
start, optional end and optional duration properties (`?` propagation), then
match the combination table.  `NaiveDateTime::date()` is floor division by
86400, `NaiveDateTime::new(d, NaiveTime::MIN)` is `d * 86400`, and
`chrono::Duration::days(1)` adds 86400 seconds. -/
def RawTiming.get_time_range (rt : RawTiming) (timezone_map : TimezoneMap) : RResult EventTimeRange :=
  match TimeValue.tryFrom rt.start with
  | .panicked => .panicked
  | .err e => .err e
  | .ok start =>
  match (match rt.end_ with
         | none => RResult.ok none
         | some p =>
           match TimeValue.tryFrom p with
           | .ok v => .ok (some v)
           | .err e => .err e
           | .panicked => .panicked) with
  | .panicked => .panicked
  | .err e => .err e
  | .ok endv =>
  match (match rt.duration with
         | none => RResult.ok none
         | some p =>
           match ICalDuration.tryFrom p with
           | .ok v => .ok (some v)
           | .err e => .err e
           | .panicked => .panicked) with
  | .panicked => .panicked
  | .err e => .err e
  | .ok durv =>
  match start, endv, durv with
  | .Date s, none, none => .ok (.Date s.date (s.date + 1))
  | .Date s, some (.Date e), none => .ok (.Date s.date e.date)
  | .DateTime sdt, none, none =>
    match sdt with
    | .Utc t => .ok (.DateTime t (t + 86400))
    | .Floating t => .ok (.FloatingDateTime t (t + 86400))
    | .TimeZone t z =>
      match TimezoneMap.get timezone_map z with
      | none => .err .InvalidTimezone
      | some tz =>
        match naiveDateSucc (t.fdiv 86400) with
        | none => .err .InvalidDate
        | some nd =>
          match tz.to_utc t with
          | .panicked => .panicked
          | .err e => .err e
          | .ok s2 =>
            match tz.to_utc (nd * 86400 - 1) with
            | .panicked => .panicked
            | .err e => .err e
            | .ok e2 => .ok (.DateTime s2 e2)
  | .DateTime sdt, some (.DateTime edt), none =>
    match sdt, edt with
    | .Utc s, .Utc e => .ok (.DateTime s e)
    | .Floating s, .Floating e => .ok (.FloatingDateTime s e)
    | .TimeZone s sz, .TimeZone e ez =>
      match TimezoneMap.get timezone_map sz with
      | none => .err .InvalidTimezone
      | some stz =>
        match TimezoneMap.get timezone_map ez with
        | none => .err .InvalidTimezone
        | some etz =>
          match stz.to_utc s with
          | .panicked => .panicked
          | .err er => .err er
          | .ok s2 =>
            match etz.to_utc e with
            | .panicked => .panicked
            | .err er => .err er
            | .ok e2 => .ok (.DateTime s2 e2)
    | _, _ => .err .InvalidDateTime
  | .DateTime sdt, none, some d =>
    match sdt with
    | .Utc t => .ok (.DateTime t (t + d.duration))
    | .Floating t => .ok (.FloatingDateTime t (t + d.duration))
    | .TimeZone t z =>
      match TimezoneMap.get timezone_map z with
      | none => .err .InvalidTimezone
      | some tz =>
        match tz.to_utc t with
        | .panicked => .panicked
        | .err e => .err e
        | .ok s2 =>
          match tz.to_utc (t + d.duration) with
          | .panicked => .panicked
          | .err e => .err e
          | .ok e2 => .ok (.DateTime s2 e2)
  | _, _, _ => .err .InvalidTimeRange

/-- Two recurrence builders set the same descriptor field (the condition
under which `IcalRecurBuilder::merge` reports a conflict). -/
def IcalRecurBuilder.setsSameField (a b : IcalRecurBuilder) : Prop :=
  (a.limit.isSome = true ∧ b.limit.isSome = true) ∨
  (a.interval.isSome = true ∧ b.interval.isSome = true) ∨
  (a.by_second.isSome = true ∧ b.by_second.isSome = true) ∨
  (a.by_minute.isSome = true ∧ b.by_minute.isSome = true) ∨
  (a.by_hour.isSome = true ∧ b.by_hour.isSome = true) ∨
  (a.by_day.isSome = true ∧ b.by_day.isSome = true) ∨
  (a.by_month_day.isSome = true ∧ b.by_month_day.isSome = true) ∨
  (a.by_year_day.isSome = true ∧ b.by_year_day.isSome = true) ∨
  (a.by_week_no.isSome = true ∧ b.by_week_no.isSome = true) ∨
  (a.by_month.isSome = true ∧ b.by_month.isSome = true) ∨
  (a.by_set_pos.isSome = true ∧ b.by_set_pos.isSome = true) ∨
  (a.wkst.isSome = true ∧ b.wkst.isSome = true)

/-- A timezone with a recurring first transition (offset +1h, one further
recurrence anchor at local instant 100) and a later-anchored second
transition (offset +2h, recurrence anchors beyond the horizon). -/
def tzRecurring : Timezone :=
  ⟨"TZ1", [⟨0, 3600, some [100]⟩, ⟨50, 7200, some [1000000]⟩]⟩

/-- A one-transition timezone: offset +1h from local instant 0. -/
def tzSingle : Timezone :=
  ⟨"TZ2", [⟨0, 3600, some [999999]⟩]⟩

/-- A timezone whose two transitions share the anchor instant 0, with
offsets +1h and +2h (both carry a recurrence set, so `offset_time` does not
panic). -/
def tzTie : Timezone :=
  ⟨"TZ4", [⟨0, 3600, some [9999]⟩, ⟨0, 7200, some [9999]⟩]⟩

/-- A timezone with a transition lacking any recurrence set
(`r_rules = None`), as produced for a transition block with no RRULE and no
RDATE. -/
def tzNoRecurrence : Timezone :=
  ⟨"TZ3", [⟨0, 3600, none⟩]⟩

/-- The one-entry timezone table used by the event-resolver witnesses. -/
def tzW : Timezone :=
  ⟨"W", [⟨0, 3600, some [999999999]⟩]⟩

/-- A `TimezoneMap` holding `tzW` under the key "W". -/
def tzmW : TimezoneMap :=
  [("W", tzW)]

theorem offsetFold_append (time : Int) (l1 l2 : List TimezoneTransition) (off last : Option Int) :
    offsetFold (l1 ++ l2) time off last =
      (match offsetFold l1 time off last with
       | .panicked => .panicked
       | .err e => .err e
       | .ok pr => offsetFold l2 time pr.1 pr.2) := by
  induction l1 generalizing off last with
  | nil => rfl
  | cons t rest ih =>
    by_cases hr : t.r_rules.isSome
    · by_cases hc : transApplies t time last = true
      · simp [offsetFold, hr, hc, ih]
      · simp [offsetFold, hr, hc, ih]
    · simp [offsetFold, hr]

theorem offsetFold_skip (time m : Int) (l : List TimezoneTransition) (off : Option Int)
    (h : ∀ t ∈ l, t.r_rules.isSome = true ∧ (t.local_start_time ≤ time → t.local_start_time ≤ m)) :
    offsetFold l time off (some m) = .ok (off, some m) := by
  induction l with
  | nil => rfl
  | cons t rest ih =>
    have ht := h t (List.mem_cons_self t rest)
    have hrest : ∀ t2 ∈ rest, t2.r_rules.isSome = true ∧ (t2.local_start_time ≤ time → t2.local_start_time ≤ m) :=
      fun t2 ht2 => h t2 (List.mem_cons_of_mem _ ht2)
    have hcond : transApplies t time (some m) = false := by
      by_cases hle : t.local_start_time ≤ time
      · have hnot : ¬ m < t.local_start_time := not_lt.mpr (ht.2 hle)
        simp [transApplies, hnot]
      · simp [transApplies, hle]
    simp [offsetFold, ht.1, hcond, ih hrest]

theorem offsetFold_below (time a : Int) (l : List TimezoneTransition)
    (hl : ∀ t ∈ l, t.r_rules.isSome = true ∧ (t.local_start_time ≤ time → t.local_start_time < a)) :
    ∀ (off last : Option Int), (last = none ∨ ∃ m, last = some m ∧ m < a) →
    ∃ off2 last2, offsetFold l time off last = .ok (off2, last2) ∧
      (last2 = none ∨ ∃ m, last2 = some m ∧ m < a) := by
  induction l with
  | nil =>
    intro off last hinv
    exact ⟨off, last, rfl, hinv⟩
  | cons t rest ih =>
    intro off last hinv
    have ht := hl t (List.mem_cons_self t rest)
    have hrest : ∀ t2 ∈ rest, t2.r_rules.isSome = true ∧ (t2.local_start_time ≤ time → t2.local_start_time < a) :=
      fun t2 ht2 => hl t2 (List.mem_cons_of_mem _ ht2)
    by_cases hc : transApplies t time last = true
    · have hle : t.local_start_time ≤ time := by
        have hp := hc
        simp [transApplies] at hp
        exact hp.1
      obtain ⟨off2, last2, heval, hinv2⟩ :=
        ih hrest (some t.offset) (some t.local_start_time)
          (Or.inr ⟨t.local_start_time, rfl, ht.2 hle⟩)
      refine ⟨off2, last2, ?_, hinv2⟩
      simpa [offsetFold, ht.1, hc] using heval
    · obtain ⟨off2, last2, heval, hinv2⟩ := ih hrest off last hinv
      refine ⟨off2, last2, ?_, hinv2⟩
      simpa [offsetFold, ht.1, hc] using heval

/-- C1: the claim states that `Timezone::offset_time` resolves against every
anchor instant of every transition — the local start date-time plus all
recurrence-generated instants not after the query — selecting the latest.
The code compares only each transition's initial `local_start_time` (the
recurrence set is never consulted during lookup): on `tzRecurring` at query
200 the code selects the second transition (initial anchor 50, offset 7200)
and returns 200 + 7200, while the claimed algorithm selects the first
transition's recurrence anchor 100 and resolves to offset 3600. -/
theorem c1_offset_resolution_skips_recurrence :
    Timezone.offset_time tzRecurring 200 = .ok (200 + 7200) ∧
    resolveOffsetSpec tzRecurring 200 = .ok 3600 := by
  constructor
  · decide
  · decide

/-- C2: the claim states `Timezone::to_utc` returns T minus the resolved
offset O; the code returns T plus O: on the one-transition timezone
`tzSingle` (offset +3600) at local time 1000 it yields 4600, not -2600. -/
theorem c2_to_utc_adds_offset :
    Timezone.to_utc tzSingle 1000 = .ok (1000 + 3600) ∧
    (1000 + 3600 : Int) ≠ 1000 - 3600 := by
  constructor
  · decide
  · decide

/-- C3: the claim states every parsing and resolution function is total and
returns an error value on the listed malformed inputs; the code panics on
each of them: `get_tzid` unwraps a failed TZID lookup in a present parameter
list; `IcalPeriod::try_from` indexes `parts[1]` when the value holds no `/`;
the duration grammar unwraps an overflowing `parse::<i64>()`; and
`offset_time` unwraps the absent recurrence set of a transition. -/
theorem c3_parsing_and_resolution_panics :
    get_tzid ⟨"DTSTART", some ("20240101T120000Z"), some [("X", ["y"])]⟩ = .panicked ∧
    IcalPeriod.tryFrom ⟨"FREEBUSY", some ("20240101T120000Z"), none⟩ = .panicked ∧
    ICalDuration.tryFrom ⟨"DURATION", some ("PT99999999999999999999S"), none⟩ = .panicked ∧
    Timezone.offset_time tzNoRecurrence 100 = .panicked := by
  refine ⟨by decide, by decide, by decide, by decide⟩

/-- C4 (counterexample): the claim states that on exactly equal anchor
instants the transition listed later in the collection wins; on `tzTie`
(two transitions anchored at 0 with offsets 3600 and 7200) at query 10 the
code returns the earlier-listed offset 3600, not the later-listed 7200. -/
theorem c4_tie_later_listed_counterexample :
    Timezone.offset_time tzTie 10 = .ok (10 + 3600) ∧
    Timezone.offset_time tzTie 10 ≠ .ok (10 + 7200) := by
  constructor
  · decide
  · decide

/-- C8: the claim's variant mapping (Z and no TZID parameter → Utc; no Z and
no TZID → Floating; no Z with TZID → TimeZone carrying the tzid; Z with
TZID → DateTime decode error) holds whenever the property carries no
parameter list or a TZID entry, but a property whose parameter list is
present without a TZID entry makes `get_tzid` panic instead of yielding the
claimed variant — the final conjunct evaluates the failing input. -/
theorem c8_date_time_variant_mapping :
    IcalDateTime.tryFrom ⟨"DTSTART", some ("20240101T120000Z"), none⟩ = .ok (.Utc 1704110400) ∧
    IcalDateTime.tryFrom ⟨"DTSTART", some ("20240101T120000"), none⟩ = .ok (.Floating 1704110400) ∧
    IcalDateTime.tryFrom ⟨"DTSTART", some ("20240101T120000"), some [("TZID", ["America/New_York"])]⟩ =
      .ok (.TimeZone 1704110400 "America/New_York") ∧
    IcalDateTime.tryFrom ⟨"DTSTART", some ("20240101T120000Z"), some [("TZID", ["America/New_York"])]⟩ =
      .err (.TypeDecode .DateTime) ∧
    IcalDateTime.tryFrom ⟨"DTSTART", some ("20240101T120000Z"), some [("X", ["y"])]⟩ = .panicked := by
  refine ⟨by decide, by decide, by decide, by decide, by decide⟩

/-- C9: the claim states the period conversion falls back to parsing the
right side as a Duration and turns any other slash count into a decode
failure; the code (which never calls the grammar's `period` rule) parses
both sides of a single `/` as date-times only — a duration right side
propagates the DateTime decode error instead of producing a start/duration
period — panics on zero slashes once the left side parses, and only the
more-than-one-slash case is the claimed Period decode failure. -/
theorem c9_period_try_from_behaviour :
    IcalPeriod.tryFrom ⟨"FREEBUSY", some ("20240101T120000Z/20240101T130000Z"), none⟩ =
      .ok (.StartEnd (.Utc 1704110400) (.Utc 1704114000)) ∧
    IcalPeriod.tryFrom ⟨"FREEBUSY", some ("20240101T120000Z/PT1H"), none⟩ =
      .err (.TypeDecode .DateTime) ∧
    IcalPeriod.tryFrom ⟨"FREEBUSY", some ("20240101T120000Z"), none⟩ = .panicked ∧
    IcalPeriod.tryFrom ⟨"FREEBUSY", some ("a/b/c"), none⟩ = .err (.TypeDecode .Period) := by
  refine ⟨by decide, by decide, by decide, by decide⟩

/-- C10: the claim states UNTIL accepts an 8-digit date (date limit) and a
UTC date-time (date-time limit) while rejecting non-UTC date-times.  The
date form succeeds and the non-UTC form fails as claimed, but the UTC
date-time form also fails: the `recur_until` rule tries the date
alternative first, which matches the date-time's first eight digits and
commits, leaving `T120000Z` unconsumed, so the public `recur` rule rejects
the input (the date-time alternative and its UTC check are unreachable). -/
theorem c10_recur_until_forms :
    IcalRecur.tryFrom ⟨"RRULE", some ("FREQ=DAILY;UNTIL=20240101"), none⟩ =
      .ok { frequency := .Daily, limit := some (.Until (.Date 19723)), interval := none,
            by_second := none, by_minute := none, by_hour := none, by_day := none,
            by_month_day := none, by_year_day := none, by_week_no := none,
            by_month := none, by_set_pos := none, wkst := none } ∧
    IcalRecur.tryFrom ⟨"RRULE", some ("FREQ=DAILY;UNTIL=20240101T120000Z"), none⟩ =
      .err (.TypeDecode .Recur) ∧
    IcalRecur.tryFrom ⟨"RRULE", some ("FREQ=DAILY;UNTIL=20240101T120000"), none⟩ =
      .err (.TypeDecode .Recur) := by
  refine ⟨by decide, by decide, by decide⟩

/-- C4 (amended): when two transitions produce exactly equal anchor instants
that are not after the query T (and that anchor is the latest applicable
initial anchor, every transition carrying a recurrence set so that
`offset_time` does not panic), the transition listed EARLIER in the
timezone's transition collection wins: the loop only replaces the recorded
anchor on a strictly later one, so the earlier-listed transition's offset is
returned. -/
theorem c4_tie_earlier_listed_wins
    (tzid : String) (pre rest : List TimezoneTransition) (t1 t2 : TimezoneTransition) (T : Int)
    (hallpre : ∀ t ∈ pre, t.r_rules.isSome = true)
    (h1 : t1.r_rules.isSome = true)
    (hallrest : ∀ t ∈ rest, t.r_rules.isSome = true)
    (ht2 : t2 ∈ rest)
    (heq : t2.local_start_time = t1.local_start_time)
    (hle : t1.local_start_time ≤ T)
    (hpre : ∀ t ∈ pre, t.local_start_time ≤ T → t.local_start_time < t1.local_start_time)
    (hrest : ∀ t ∈ rest, t.local_start_time ≤ T → t.local_start_time ≤ t1.local_start_time) :
    Timezone.offset_time ⟨tzid, pre ++ t1 :: rest⟩ T = .ok (T + t1.offset) := by
  obtain ⟨off2, last2, heval, hinv⟩ :=
    offsetFold_below T t1.local_start_time pre
      (fun t ht => ⟨hallpre t ht, hpre t ht⟩) none none (Or.inl rfl)
  have hc : transApplies t1 T last2 = true := by
    rcases hinv with h | ⟨m, hm, hlt⟩
    · simp [transApplies, h, hle]
    · simp [transApplies, hm, hle, hlt]
  have hskip := offsetFold_skip T t1.local_start_time rest (some t1.offset)
    (fun t ht => ⟨hallrest t ht, hrest t ht⟩)
  simp only [Timezone.offset_time, offsetFold_append, heval]
  simp [offsetFold, h1, hc, hskip]

/-- Witness for the amended C4 theorem at a concrete two-transition tie
(anchor 0, offsets 3600 and 7200, query 10). -/
theorem c4_tie_earlier_listed_wins_witness :
    Timezone.offset_time ⟨"TZ4W", [⟨0, 3600, some [9999]⟩, ⟨0, 7200, some [9999]⟩]⟩ 10 =
      .ok (10 + 3600) := by
  have h := c4_tie_earlier_listed_wins "TZ4W" [] [⟨0, 7200, some [9999]⟩]
    ⟨0, 3600, some [9999]⟩ ⟨0, 7200, some [9999]⟩ 10
    (by decide) (by decide) (by decide) (by decide) (by decide) (by decide)
    (by decide) (by decide)
  simpa using h

/-- C5: for an event with a start and neither end nor duration the resolver
produces: for a Date start a Date range ending one day after the start; for
a Utc DateTime start a DateTime range ending one day (86400 s) later; for a
Floating DateTime start a FloatingDateTime range ending one day later; and
for a TimeZone(tzid) start, after looking the tzid up in the TimezoneMap
(timezone error kind when absent), a DateTime range from the converted
start to the converted next-calendar-day local midnight minus one second. -/
theorem c5_start_only_combinations (tzm : TimezoneMap) :
    (∀ (rt : RawTiming) (d : IcalDate),
      TimeValue.tryFrom rt.start = .ok (.Date d) → rt.end_ = none → rt.duration = none →
      RawTiming.get_time_range rt tzm = .ok (.Date d.date (d.date + 1))) ∧
    (∀ (rt : RawTiming) (t : Int),
      TimeValue.tryFrom rt.start = .ok (.DateTime (.Utc t)) → rt.end_ = none → rt.duration = none →
      RawTiming.get_time_range rt tzm = .ok (.DateTime t (t + 86400))) ∧
    (∀ (rt : RawTiming) (t : Int),
      TimeValue.tryFrom rt.start = .ok (.DateTime (.Floating t)) → rt.end_ = none → rt.duration = none →
      RawTiming.get_time_range rt tzm = .ok (.FloatingDateTime t (t + 86400))) ∧
    (∀ (rt : RawTiming) (t : Int) (z : String),
      TimeValue.tryFrom rt.start = .ok (.DateTime (.TimeZone t z)) → rt.end_ = none → rt.duration = none →
      TimezoneMap.get tzm z = none →
      RawTiming.get_time_range rt tzm = .err .InvalidTimezone) ∧
    (∀ (rt : RawTiming) (t : Int) (z : String) (tz : Timezone) (s e : Int),
      TimeValue.tryFrom rt.start = .ok (.DateTime (.TimeZone t z)) → rt.end_ = none → rt.duration = none →
      TimezoneMap.get tzm z = some tz →
      tz.to_utc t = .ok s →
      tz.to_utc ((t.fdiv 86400 + 1) * 86400 - 1) = .ok e →
      RawTiming.get_time_range rt tzm = .ok (.DateTime s e)) := by
  refine ⟨?_, ?_, ?_, ?_, ?_⟩
  · intro rt d h1 h2 h3
    simp [RawTiming.get_time_range, h1, h2, h3]
  · intro rt t h1 h2 h3
    simp [RawTiming.get_time_range, h1, h2, h3]
  · intro rt t h1 h2 h3
    simp [RawTiming.get_time_range, h1, h2, h3]
  · intro rt t z h1 h2 h3 h4
    simp [RawTiming.get_time_range, h1, h2, h3, h4]
  · intro rt t z tz s e h1 h2 h3 h4 h5 h6
    simp [RawTiming.get_time_range, h1, h2, h3, h4, naiveDateSucc, h5, h6]

/-- Witness for C5 at concrete events: a bare DATE start, a Utc start, a
Floating start, a TimeZone start whose tzid is absent from the table, and a
TimeZone start resolved through `tzW` (offset +3600). -/
theorem c5_start_only_combinations_witness :
    RawTiming.get_time_range ⟨⟨"DTSTART", some ("20240101"), none⟩, none, none⟩ tzmW =
      .ok (.Date 19723 19724) ∧
    RawTiming.get_time_range ⟨⟨"DTSTART", some ("20240101T090000Z"), none⟩, none, none⟩ tzmW =
      .ok (.DateTime 1704099600 1704186000) ∧
    RawTiming.get_time_range ⟨⟨"DTSTART", some ("20240101T090000"), none⟩, none, none⟩ tzmW =
      .ok (.FloatingDateTime 1704099600 1704186000) ∧
    RawTiming.get_time_range ⟨⟨"DTSTART", some ("20240101T090000"), some [("TZID", ["Q"])]⟩, none, none⟩ tzmW =
      .err .InvalidTimezone ∧
    RawTiming.get_time_range ⟨⟨"DTSTART", some ("20240101T090000"), some [("TZID", ["W"])]⟩, none, none⟩ tzmW =
      .ok (.DateTime 1704103200 1704157199) := by
  refine ⟨?_, ?_, ?_, ?_, ?_⟩
  · exact (c5_start_only_combinations tzmW).1 _ ⟨19723⟩ (by decide) rfl rfl
  · exact (c5_start_only_combinations tzmW).2.1 _ 1704099600 (by decide) rfl rfl
  · exact (c5_start_only_combinations tzmW).2.2.1 _ 1704099600 (by decide) rfl rfl
  · exact (c5_start_only_combinations tzmW).2.2.2.1 _ 1704099600 "Q" (by decide) rfl rfl (by decide)
  · exact (c5_start_only_combinations tzmW).2.2.2.2 _ 1704099600 "W" tzW 1704103200 1704157199
      (by decide) rfl rfl (by decide) (by decide) (by decide)

/-- C6: inputs outside the combination table fail: a DateTime start paired
with a DateTime end of a different variant tag fails with the
mismatched-date-time kind (`InvalidDateTime`); a DateTime start paired with
a Date end fails with the time-range kind; and any input carrying both an
end and a duration (all three properties decoding successfully) fails with
the time-range kind. -/
theorem c6_unlisted_combinations_fail (tzm : TimezoneMap) :
    (∀ (rt : RawTiming) (pe : Property) (s e : IcalDateTime),
      TimeValue.tryFrom rt.start = .ok (.DateTime s) → rt.end_ = some pe →
      TimeValue.tryFrom pe = .ok (.DateTime e) → rt.duration = none →
      s.variantTag ≠ e.variantTag →
      RawTiming.get_time_range rt tzm = .err .InvalidDateTime) ∧
    (∀ (rt : RawTiming) (pe : Property) (s : IcalDateTime) (d : IcalDate),
      TimeValue.tryFrom rt.start = .ok (.DateTime s) → rt.end_ = some pe →
      TimeValue.tryFrom pe = .ok (.Date d) → rt.duration = none →
      RawTiming.get_time_range rt tzm = .err .InvalidTimeRange) ∧
    (∀ (rt : RawTiming) (pe pd : Property) (sv ev : TimeValue) (dv : ICalDuration),
      TimeValue.tryFrom rt.start = .ok sv → rt.end_ = some pe →
      TimeValue.tryFrom pe = .ok ev → rt.duration = some pd →
      ICalDuration.tryFrom pd = .ok dv →
      RawTiming.get_time_range rt tzm = .err .InvalidTimeRange) := by
  refine ⟨?_, ?_, ?_⟩
  · intro rt pe s e h1 h2 h3 h4 htag
    cases s <;> cases e <;>
      simp_all [RawTiming.get_time_range, IcalDateTime.variantTag]
  · intro rt pe s d h1 h2 h3 h4
    cases s <;> simp [RawTiming.get_time_range, h1, h2, h3, h4]
  · intro rt pe pd sv ev dv h1 h2 h3 h4 h5
    cases sv <;> cases ev <;> simp [RawTiming.get_time_range, h1, h2, h3, h4, h5]

/-- Witness for C6 at concrete events: a Utc start with a Floating end, a
Utc start with a DATE end, and a Utc start with both an end and a duration. -/
theorem c6_unlisted_combinations_fail_witness :
    RawTiming.get_time_range
        ⟨⟨"DTSTART", some ("20240101T090000Z"), none⟩,
         some ⟨"DTEND", some ("20240102T090000"), none⟩, none⟩ tzmW = .err .InvalidDateTime ∧
    RawTiming.get_time_range
        ⟨⟨"DTSTART", some ("20240101T090000Z"), none⟩,
         some ⟨"DTEND", some ("20240102"), none⟩, none⟩ tzmW = .err .InvalidTimeRange ∧
    RawTiming.get_time_range
        ⟨⟨"DTSTART", some ("20240101T090000Z"), none⟩,
         some ⟨"DTEND", some ("20240102T090000Z"), none⟩,
         some ⟨"DURATION", some ("PT1H"), none⟩⟩ tzmW = .err .InvalidTimeRange := by
  refine ⟨?_, ?_, ?_⟩
  · exact (c6_unlisted_combinations_fail tzmW).1 _ _ (.Utc 1704099600) (.Floating 1704186000)
      (by decide) rfl (by decide) rfl (by decide)
  · exact (c6_unlisted_combinations_fail tzmW).2.1 _ _ (.Utc 1704099600) ⟨19724⟩
      (by decide) rfl (by decide) rfl
  · exact (c6_unlisted_combinations_fail tzmW).2.2 _ _ _
      (.DateTime (.Utc 1704099600)) (.DateTime (.Utc 1704186000)) ⟨3600⟩
      (by decide) rfl (by decide) rfl (by decide)

/-- C7: merging two recurrence fragments that set the same descriptor field
is a Recur decode error (duplicate keys are illegal, not last-wins), and in
particular both `FREQ=DAILY;COUNT=5;COUNT=3` (duplicate COUNT) and
`FREQ=DAILY;UNTIL=20240101;COUNT=5` (UNTIL and COUNT both set the
mutually-exclusive limit slot) fail to decode. -/
theorem c7_duplicate_fragment_is_decode_error :
    (∀ a b : IcalRecurBuilder, IcalRecurBuilder.setsSameField a b →
      IcalRecurBuilder.merge a b = .err (.TypeDecode .Recur)) ∧
    IcalRecur.tryFrom ⟨"RRULE", some ("FREQ=DAILY;COUNT=5;COUNT=3"), none⟩ =
      .err (.TypeDecode .Recur) ∧
    IcalRecur.tryFrom ⟨"RRULE", some ("FREQ=DAILY;UNTIL=20240101;COUNT=5"), none⟩ =
      .err (.TypeDecode .Recur) := by
  refine ⟨?_, by decide, by decide⟩
  intro a b h
  unfold IcalRecurBuilder.merge
  by_cases h1 : (a.limit.isSome && b.limit.isSome) = true
  · rw [if_pos h1]
  · rw [if_neg h1]
    by_cases h2 : (a.interval.isSome && b.interval.isSome) = true
    · rw [if_pos h2]
    · rw [if_neg h2]
      by_cases h3 : (a.by_second.isSome && b.by_second.isSome) = true
      · rw [if_pos h3]
      · rw [if_neg h3]
        by_cases h4 : (a.by_minute.isSome && b.by_minute.isSome) = true
        · rw [if_pos h4]
        · rw [if_neg h4]
          by_cases h5 : (a.by_hour.isSome && b.by_hour.isSome) = true
          · rw [if_pos h5]
          · rw [if_neg h5]
            by_cases h6 : (a.by_day.isSome && b.by_day.isSome) = true
            · rw [if_pos h6]
            · rw [if_neg h6]
              by_cases h7 : (a.by_month_day.isSome && b.by_month_day.isSome) = true
              · rw [if_pos h7]
              · rw [if_neg h7]
                by_cases h8 : (a.by_year_day.isSome && b.by_year_day.isSome) = true
                · rw [if_pos h8]
                · rw [if_neg h8]
                  by_cases h9 : (a.by_week_no.isSome && b.by_week_no.isSome) = true
                  · rw [if_pos h9]
                  · rw [if_neg h9]
                    by_cases h10 : (a.by_month.isSome && b.by_month.isSome) = true
                    · rw [if_pos h10]
                    · rw [if_neg h10]
                      by_cases h11 : (a.by_set_pos.isSome && b.by_set_pos.isSome) = true
                      · rw [if_pos h11]
                      · rw [if_neg h11]
                        by_cases h12 : (a.wkst.isSome && b.wkst.isSome) = true
                        · rw [if_pos h12]
                        · rw [if_neg h12]
                          exfalso
                          rcases h with ⟨x, y⟩ | ⟨x, y⟩ | ⟨x, y⟩ | ⟨x, y⟩ | ⟨x, y⟩ | ⟨x, y⟩ |
                            ⟨x, y⟩ | ⟨x, y⟩ | ⟨x, y⟩ | ⟨x, y⟩ | ⟨x, y⟩ | ⟨x, y⟩ <;> simp_all

/-- Witness for C7's merge-conflict theorem: two builders that both set the
limit slot. -/
theorem c7_duplicate_fragment_is_decode_error_witness :
    IcalRecurBuilder.merge { limit := some (.Count 1) } { limit := some (.Count 2) } =
      .err (.TypeDecode .Recur) := by
  exact c7_duplicate_fragment_is_decode_error.1 _ _ (Or.inl (by decide))
